import Mathlib

/-! Verification of the page-generation pipeline of an AI landing-page
backend service: the web crawler that extracts a brand-context string from
a website, the prompt composer that renders user briefs and brand context
into generation and regeneration prompts, the generation client's error
taxonomy, the MongoDB-backed page store, and the HTTP page-lifecycle
endpoints (generate, edit-section, regenerate-section, reorder, publish).

External collaborators (the HTTP fetch + HTML parse, the LLM provider, the
strict JSON parser) are modelled as explicit function parameters (oracles);
everything the repository itself computes is translated directly. -/

namespace AiDlp

/-! ## Crawler (app/crawler.py)

`_fetch_page_data` wraps `requests.get` + BeautifulSoup extraction in a
try/except that converts any failure to `None`; the network fetch and HTML
parse are external, so they appear as an oracle `fetch_content : String ->
Option PageContent` returning the extracted fields (the per-page 3000-char
body cap lives inside `_get_clean_text`, i.e. inside the oracle). The
`url` field is set by the code itself from the argument.  Link discovery
resolves and filters anchors with urllib/BeautifulSoup (external): the
oracle `candidates base_url html` is the sequence of cleaned same-domain
absolute URLs in anchor order; the self-link filter, the `set()`
deduplication and the `[:5]` cap are the code's own and are embedded.
Python's `list(links)` on a `set` yields the elements in the process's
hash-determined iteration order: that order is the `set_order` parameter,
constrained by `IsSetOrder` (a duplicate-free enumeration of the set). -/

/-- Content of one fetched page as `_fetch_page_data` extracts it (minus the
url, which the code adds itself). -/
structure PageContent where
  title : String
  meta_description : String
  headings_h1 : List String
  headings_h2 : List String
  headings_h3 : List String
  text_content : String
  html : String
deriving DecidableEq

/-- The `page_data` dict of `_fetch_page_data`. -/
structure PageData where
  url : String
  title : String
  meta_description : String
  headings_h1 : List String
  headings_h2 : List String
  headings_h3 : List String
  text_content : String
  html : String
deriving DecidableEq

/-- `_fetch_page_data(url)`: `None` on any fetch/parse failure, otherwise the
extracted fields with `"url": url`. -/
def fetch_page_data (fetch_content : String → Option PageContent) (url : String) :
    Option PageData :=
  (fetch_content url).map fun c =>
    { url := url, title := c.title, meta_description := c.meta_description,
      headings_h1 := c.headings_h1, headings_h2 := c.headings_h2,
      headings_h3 := c.headings_h3, text_content := c.text_content, html := c.html }

/-- Python's `s.rstrip('/')`: drop every trailing `'/'` (written over the
character list so that it evaluates inside the kernel). -/
def rstrip_slash (s : String) : String :=
  ⟨(s.data.reverse.dropWhile (· == '/')).reverse⟩

/-- Python string slicing `s[:n]`: the first `n` characters. -/
def py_take (s : String) (n : Nat) : String :=
  ⟨s.data.take n⟩

/-- `'sep'.join(parts)`. -/
def join_with (sep : String) : List String → String
  | [] => ""
  | [s] => s
  | s :: s2 :: rest => s ++ sep ++ join_with sep (s2 :: rest)

/-- A valid iteration order of a Python `set`: a duplicate-free enumeration of
exactly the inserted elements (the order itself is hash-dependent and is NOT a
function of the elements alone). -/
def IsSetOrder (f : List String → List String) : Prop :=
  ∀ l : List String, (f l).Nodup ∧ ∀ x : String, x ∈ f l ↔ x ∈ l

/-- `_extract_internal_links(base_url, html)`: the filtered candidates go into
a `set` (dedup), `list(links)` reads them back in set order, `[:5]` caps them.
`candidates` is the anchor-order list of cleaned same-domain URLs (external
resolution); the self-link comparison `clean_url.rstrip('/') !=
base_url.rstrip('/')` is embedded. -/
def extract_internal_links (candidates : List String)
    (set_order : List String → List String) (base_url : String) : List String :=
  (set_order (candidates.filter
    fun u => rstrip_slash u != rstrip_slash base_url)).take 5

/-- The parts `_build_brand_context` appends for page number `i` (0 = home):
the URL header, then Title / Description / Main Headings when truthy, then the
800-char content preview. -/
def page_context_parts (i : Nat) (page : PageData) : List String :=
  (if i == 0 then "=== HOME PAGE ===\nURL: " ++ page.url
   else "\n=== PAGE " ++ toString i ++ " ===\nURL: " ++ page.url)
  :: ((if page.title != "" then ["Title: " ++ page.title] else [])
    ++ (if page.meta_description != "" then
          ["Description: " ++ page.meta_description] else [])
    ++ (if page.headings_h1.isEmpty then [] else
          ["Main Headings: " ++ join_with ", " (page.headings_h1.take 3)])
    ++ ["Content Preview:\n" ++ py_take page.text_content 800])

/-- The `enumerate(pages)` loop of `_build_brand_context`: the parts of page
`i`, then of page `i+1`, and so on. -/
def context_parts_from (i : Nat) : List PageData → List String
  | [] => []
  | p :: rest => page_context_parts i p ++ context_parts_from (i + 1) rest

/-- `_build_brand_context(pages)`. -/
def build_brand_context (pages : List PageData) : String :=
  join_with "\n" (context_parts_from 0 pages)

/-- The pages `crawl_website` accumulates: `None` when the home fetch fails,
otherwise the home page followed by every inner page among the first
`max_inner_pages` candidates whose fetch succeeded (failures are skipped). -/
def crawl_pages_data (fetch_content : String → Option PageContent)
    (candidates : String → String → List String)
    (set_order : List String → List String)
    (base_url : String) (max_inner_pages : Nat) : Option (List PageData) :=
  match fetch_page_data fetch_content base_url with
  | none => none
  | some home_data =>
    let inner_links :=
      extract_internal_links (candidates base_url home_data.html) set_order base_url
    some (home_data ::
      ((inner_links.take max_inner_pages).map
        (fetch_page_data fetch_content)).filterMap id)

/-- The URLs `crawl_website` fetches, in order: the home page only when its
fetch fails, otherwise the home page and then every one of the first
`max_inner_pages` candidate links (an inner failure does not stop the loop). -/
def crawl_attempted_urls (fetch_content : String → Option PageContent)
    (candidates : String → String → List String)
    (set_order : List String → List String)
    (base_url : String) (max_inner_pages : Nat) : List String :=
  match fetch_page_data fetch_content base_url with
  | none => [base_url]
  | some home_data =>
    base_url :: (extract_internal_links (candidates base_url home_data.html)
      set_order base_url).take max_inner_pages

/-- `WebCrawler.crawl_website(base_url, max_inner_pages=2)`: `None` when the
home page fetch fails, otherwise the brand context folded from the crawled
pages. -/
def crawl_website (fetch_content : String → Option PageContent)
    (candidates : String → String → List String)
    (set_order : List String → List String)
    (base_url : String) (max_inner_pages : Nat := 2) : Option String :=
  (crawl_pages_data fetch_content candidates set_order base_url
    max_inner_pages).map build_brand_context

/-! ## Prompt composer (app/llm/prompts.py)

Pure string construction, translated verbatim (Python braces `{{`/`}}`
render as literal braces, written `\x7b`/`\x7d` here). The per-call
`uuid.uuid4().hex[:8]` is external randomness and appears as the
`uuid_hex` parameter. A Python dict of brief fields is a `UserInput` of
`Option` fields (`None` = key absent); `dict.get(k, d)` is `Option.getD`. -/

/-- The user brief as the Python code passes it around: a dict whose keys may
be absent. `{}` (all fields `none`) is the empty dict. -/
structure UserInput where
  industry : Option String := none
  offer : Option String := none
  target_audience : Option String := none
  brand_tone : Option String := none
  url : Option String := none
deriving DecidableEq

/-- Python truthiness of an optional string: `None` and `""` are falsy. -/
def opt_truthy : Option String → Bool
  | none => false
  | some s => s != ""

/-- One section of a page: `id`, `type`, `order` plus the variant-specific
`data` payload, modelled as an association list from field name to the
field's rendered value. -/
structure SectionData where
  id : String
  type : String
  order : Int
  data : List (String × String)
deriving DecidableEq

/-- Python's `str()` of the `data` dict (values stand for their reprs). -/
def py_dict_repr (d : List (String × String)) : String :=
  "\x7b" ++ join_with ", " (d.map fun kv => "'" ++ kv.1 ++ "': " ++ kv.2) ++ "\x7d"

/-- The fixed instruction block emitted when a crawled brand context is
present. -/
def tone_instruction_with_context : String :=
  "
CRITICAL: Use the above brand context as your PRIMARY reference for:
- Tone of voice and writing style
- Language patterns and vocabulary
- Brand personality and messaging approach
- Visual aesthetic (colors, imagery style)
- Value propositions and positioning

The generated landing page should feel like a natural extension of the existing brand website.
Match the sophistication level, formality, and emotional tone you observe in the crawled content.
"

def section_instructions_hero : String :=
  "For HERO section, regenerate with:
- NEW headline (5-8 words, powerful, unique angle)
- NEW subheadline (1-2 sentences, different messaging)
- Same CTA button text OR new CTA if makes sense
- NEW background image URL from Unsplash that fits the new angle
- Keep same text and background colors"

def section_instructions_features : String :=
  "For FEATURES section, regenerate with:
- NEW section title and description
- 3 NEW features (different benefits/angles from current)
- Keep emoji icons
- Different wording, same structure
- Focus on different value propositions"

def section_instructions_testimonials : String :=
  "For TESTIMONIALS section, regenerate with:
- NEW section title
- 2 NEW testimonials (different quotes, different personas)
- NEW customer names, roles, companies
- Keep 5-star ratings
- Different benefits highlighted vs current version"

def section_instructions_faq : String :=
  "For FAQ section, regenerate with:
- NEW section title (if different angle needed)
- 3 NEW FAQ questions and answers
- Different common questions than current
- 1-2 sentence answers
- Address different concerns/use cases"

def section_instructions_contact : String :=
  "For CONTACT section, regenerate with:
- NEW CTA headline
- NEW description copy
- Keep same form fields (email, company, message)
- NEW submit button text if appropriate
- Keep background color"

def section_instructions_footer : String :=
  "For FOOTER section, regenerate with:
- Same link structure and URLs
- Same social links
- NEW copyright notice or company tagline if applicable"

/-- `build_landing_page_prompt(user_input, crawled_context=None)`. -/
def build_landing_page_prompt (uuid_hex : String) (user_input : UserInput)
    (crawled_context : Option String) : String :=
  let unique_page_id := "landing-" ++ uuid_hex
  let industry := user_input.industry.getD "general business"
  let offer := user_input.offer.getD ""
  let target_audience := user_input.target_audience.getD ""
  let brand_tone := user_input.brand_tone.getD "professional"
  let brand_context_section :=
    if opt_truthy crawled_context then
      "\n## BRAND CONTEXT (Crawled from Website)\n" ++ crawled_context.getD "" ++ "\n\n"
    else ""
  let tone_instruction :=
    if opt_truthy crawled_context then tone_instruction_with_context
    else "\nUse a " ++ brand_tone ++ " tone throughout all copy.\n"
  "You are an expert landing page designer and copywriter. Generate a landing page JSON specification that converts visitors into customers.

## USER REQUIREMENTS
- Industry: "
  ++ industry
  ++ "
- Offer/Product: "
  ++ offer
  ++ "
- Target Audience: "
  ++ target_audience
  ++ "
- Brand Tone: "
  ++ brand_tone
  ++ "

"
  ++ brand_context_section
  ++ tone_instruction
  ++ "

## CONTENT GUIDELINES

**If brand context is provided above:**
1. **Tone Matching**: Carefully analyze the writing style, vocabulary, and sentence structure in the brand context. Mirror this style precisely.
2. **Voice Consistency**: If the brand is casual and conversational, be casual. If formal and authoritative, match that.
3. **Vocabulary**: Use similar terminology, industry jargon, and word choices as seen in the context.
4. **Messaging Alignment**: Echo the value propositions and benefits mentioned in the brand context.
5. **Visual Alignment**: If the context mentions colors or aesthetic preferences, respect those.

**General Guidelines:**
- Headlines should be compelling and benefit-driven (5-8 words)
- Subheadlines should expand on the value proposition (1-2 sentences)
- Features should focus on benefits, not just features
- Testimonials should feel authentic and specific
- FAQs should address real objections and concerns
- CTAs should be action-oriented and clear

## TECHNICAL REQUIREMENTS

Return ONLY valid JSON. No markdown code blocks (```json), no explanatory text, just raw JSON.

Use this exact structure: 

\x7b
  \"pageId\": \""
  ++ unique_page_id
  ++ "\",
  \"version\": 1,
  \"sections\": [
    \x7b
      \"id\": \"hero-1\",
      \"type\": \"hero\",
      \"order\": 0,
      \"data\": \x7b
        \"headline\": \"string - powerful main headline (5-8 words, benefit-focused)\",
        \"subheadline\": \"string - supporting headline that expands the value prop (1-2 sentences)\",
        \"ctaText\": \"string - action button text (3-5 words, e.g., 'Start Free Trial', 'Get Started Now')\",
        \"backgroundImage\": \"https://images.unsplash.com/photo-... - relevant unsplash image URL\",
        \"textColor\": \"#FFFFFF\",
        \"backgroundColor\": \"#1a1a1a\"
      \x7d
    \x7d,
    \x7b
      \"id\": \"features-1\",
      \"type\": \"features\",
      \"order\": 1,
      \"data\": \x7b
        \"title\": \"string - section headline\",
        \"description\": \"string - optional section description (1-2 sentences)\",
        \"items\": [
          \x7b
            \"id\": \"f1\",
            \"title\": \"string - feature name (2-4 words)\",
            \"description\": \"string - benefit-focused description (1 sentence, focus on what the customer gains)\",
            \"icon\": \"emoji - single relevant emoji\"
          \x7d,
          \x7b
            \"id\": \"f2\",
            \"title\": \"string\",
            \"description\": \"string\",
            \"icon\": \"emoji\"
          \x7d,
          \x7b
            \"id\": \"f3\",
            \"title\": \"string\",
            \"description\": \"string\",
            \"icon\": \"emoji\"
          \x7d
        ]
      \x7d
    \x7d,
    \x7b
      \"id\": \"testimonials-1\",
      \"type\": \"testimonials\",
      \"order\": 2,
      \"data\": \x7b
        \"title\": \"string - section title (e.g., 'What Our Customers Say', 'Trusted By Thousands')\",
        \"items\": [
          \x7b
            \"id\": \"t1\",
            \"quote\": \"string - authentic testimonial (1-2 sentences, focus on specific results or benefits)\",
            \"author\": \"string - realistic first and last name\",
            \"role\": \"string - job title\",
            \"company\": \"string - company name (can be real or realistic-sounding)\",
            \"rating\": 5
          \x7d,
          \x7b
            \"id\": \"t2\",
            \"quote\": \"string\",
            \"author\": \"string\",
            \"role\": \"string\",
            \"company\": \"string\",
            \"rating\": 5
          \x7d
        ]
      \x7d
    \x7d,
    \x7b
      \"id\": \"faq-1\",
      \"type\": \"faq\",
      \"order\": 3,
      \"data\": \x7b
        \"title\": \"Frequently Asked Questions\",
        \"items\": [
          \x7b
            \"id\": \"q1\",
            \"question\": \"string - common objection or question (conversational style)\",
            \"answer\": \"string - clear, concise answer (1-2 sentences)\"
          \x7d,
          \x7b
            \"id\": \"q2\",
            \"question\": \"string\",
            \"answer\": \"string\"
          \x7d,
          \x7b
            \"id\": \"q3\",
            \"question\": \"string\",
            \"answer\": \"string\"
          \x7d
        ]
      \x7d
    \x7d,
    \x7b
      \"id\": \"contact-1\",
      \"type\": \"contact\",
      \"order\": 4,
      \"data\": \x7b
        \"title\": \"string - compelling CTA headline (e.g., 'Ready to Transform Your Business?')\",
        \"description\": \"string - supporting text that creates urgency or reinforces value (1-2 sentences)\",
        \"fields\": [
          \x7b\"name\": \"email\", \"label\": \"Email Address\", \"type\": \"email\", \"required\": true\x7d,
          \x7b\"name\": \"company\", \"label\": \"Company Name\", \"type\": \"text\", \"required\": false\x7d,
          \x7b\"name\": \"message\", \"label\": \"How can we help?\", \"type\": \"textarea\", \"required\": true\x7d
        ],
        \"submitText\": \"string - button text (e.g., 'Get Started', 'Request Demo')\",
        \"backgroundColor\": \"#f9fafb\"
      \x7d
    \x7d,
    \x7b
      \"id\": \"footer-1\",
      \"type\": \"footer\",
      \"order\": 5,
      \"data\": \x7b
        \"links\": [
          \x7b\"label\": \"Privacy Policy\", \"url\": \"/privacy\"\x7d,
          \x7b\"label\": \"Terms of Service\", \"url\": \"/terms\"\x7d,
          \x7b\"label\": \"Contact\", \"url\": \"/contact\"\x7d
        ],
        \"socialLinks\": [
          \x7b\"platform\": \"Twitter\", \"url\": \"https://twitter.com\"\x7d,
          \x7b\"platform\": \"LinkedIn\", \"url\": \"https://linkedin.com\"\x7d
        ],
        \"copyright\": \"© 2025 "
  ++ (if offer == "" then "Company" else offer)
  ++ ". All rights reserved.\"
      \x7d
    \x7d
  ]
\x7d

Generate the complete landing page JSON now:"

/-- `section_instructions.get(section_type, default)`. -/
def section_instructions_for (t : String) : String :=
  if t == "hero" then section_instructions_hero
  else if t == "features" then section_instructions_features
  else if t == "testimonials" then section_instructions_testimonials
  else if t == "faq" then section_instructions_faq
  else if t == "contact" then section_instructions_contact
  else if t == "footer" then section_instructions_footer
  else "Regenerate this section with new, unique content while keeping the same structure."

/-- `build_section_regenerate_prompt(section, user_context, crawled_context=None)`. -/
def build_section_regenerate_prompt (s : SectionData) (user_context : UserInput)
    (crawled_context : Option String) : String :=
  let section_type := s.type
  let current_data := s.data
  let crawl_info :=
    if opt_truthy crawled_context then
      "\n\nBRAND CONTEXT FROM WEBSITE:\n" ++ crawled_context.getD "" ++ "\n"
    else ""
  let instructions := section_instructions_for section_type
  "You are an expert landing page designer. Regenerate a single landing page section.

ORIGINAL USER CONTEXT:
- Industry: "
  ++ (user_context.industry.getD "")
  ++ "
- Offer: "
  ++ (user_context.offer.getD "")
  ++ "
- Target Audience: "
  ++ (user_context.target_audience.getD "")
  ++ "
- Brand Tone: "
  ++ (user_context.brand_tone.getD "")
  ++ crawl_info
  ++ "

CURRENT "
  ++ section_type.toUpper
  ++ " SECTION TO REPLACE:
"
  ++ (py_dict_repr current_data)
  ++ "

REGENERATION INSTRUCTIONS:
"
  ++ instructions
  ++ "

KEY RULES:
1. Create completely NEW content (different headlines, copy, etc.) - NOT a slight variation
2. Keep the same JSON structure and field names
3. Maintain the brand tone and industry context
4. Keep appealing to the target audience
5. Don't use the exact same words/phrases as the current version
6. All data should be realistic and specific to the industry

Return ONLY valid JSON, no markdown, no code blocks. Ensure valid JSON format:

\x7b
  \"id\": \""
  ++ s.id
  ++ "\",
  \"type\": \""
  ++ section_type
  ++ "\",
  \"order\": "
  ++ (toString s.order)
  ++ ",
  \"data\": \x7b
    // Your new content here - match the structure of current data
  \x7d
\x7d

Generate completely NEW and UNIQUE content now:"

/-! ## Generation client (app/llm/generator.py)

`client.chat.completions.create` (fixed system persona, temperature 0.7,
bounded tokens) is the external provider: the oracle `provider` maps the
user-role prompt to either the response text or a failure.  `json.loads` is
the external strict JSON parser: `parse_spec` / `parse_section` return
`none` exactly when the text is not valid JSON of the expected shape (the
code attempts no repair).  A `json.JSONDecodeError` is re-raised as
`ValueError("Failed to parse LLM response as JSON: ...")`; any other
exception is re-raised as `Exception("Error generating page spec: ...")` —
two distinct error constructors (the JSON library's own detail suffix is
elided). -/

/-- Outcome of the one provider call. -/
inductive ProviderResult where
  | ok (text : String)
  | err (msg : String)
deriving DecidableEq

/-- The two exception channels `generate_page_spec` / `regenerate_section`
re-raise: `ValueError` on JSON parse failure, a wrapped generic `Exception`
otherwise. -/
inductive GenError where
  | malformedOutput (msg : String)
  | generationError (msg : String)
deriving DecidableEq

/-- `str(e)` of the raised exception, as the route interpolates it. -/
def gen_error_str : GenError → String
  | .malformedOutput m => m
  | .generationError m => m

/-- A parsed full-generation response: a JSON object whose `pageId`,
`version` and `sections` keys may each be absent. -/
structure PageSpec where
  pageId : Option String := none
  version : Option Int := none
  sections : Option (List SectionData) := none
deriving DecidableEq

/-- The crawl step shared by `generate_page_spec` and `regenerate_section`:
`website_url = <dict>.get("url")`, then `if website_url:` (None and `""` are
falsy) guards `crawler.crawl_website(website_url)`. -/
def generator_crawled_context (crawl : String → Option String) (d : UserInput) :
    Option String :=
  match d.url with
  | none => none
  | some u => if u == "" then none else crawl u

/-- The prompt `generate_page_spec` actually sends.  The function's own
`crawled_context` parameter is dead: the body starts with
`crawled_context = None` and recomputes the context from
`user_input.get("url")` alone, so the prompt depends only on `user_input`
and the generator's own crawl. -/
def generator_prompt (crawl : String → Option String) (uuid_hex : String)
    (user_input : UserInput) : String :=
  build_landing_page_prompt uuid_hex user_input
    (generator_crawled_context crawl user_input)

/-- `generate_page_spec(user_input, crawled_context=None)`; the
`crawled_context` argument is overwritten with `None` on entry. -/
def generate_page_spec (crawl : String → Option String)
    (provider : String → ProviderResult)
    (parse_spec : String → Option PageSpec)
    (uuid_hex : String) (user_input : UserInput)
    (crawled_context : Option String) : Except GenError PageSpec :=
  match provider (generator_prompt crawl uuid_hex user_input) with
  | .err msg => .error (.generationError ("Error generating page spec: " ++ msg))
  | .ok text =>
    match parse_spec text with
    | none => .error (.malformedOutput "Failed to parse LLM response as JSON")
    | some spec => .ok spec

/-- The prompt `regenerate_section` sends (its second Python parameter,
named `prompt`, is in fact the user-context dict). -/
def regenerate_prompt_sent (crawl : String → Option String) (s : SectionData)
    (user_context : UserInput) : String :=
  build_section_regenerate_prompt s user_context
    (generator_crawled_context crawl user_context)

/-- `regenerate_section(section, prompt)` of the generator module. -/
def regenerate_section (crawl : String → Option String)
    (provider : String → ProviderResult)
    (parse_section : String → Option SectionData)
    (s : SectionData) (user_context : UserInput) : Except GenError SectionData :=
  match provider (regenerate_prompt_sent crawl s user_context) with
  | .err msg => .error (.generationError ("Error regenerating section: " ++ msg))
  | .ok text =>
    match parse_section text with
    | none => .error (.malformedOutput "Failed to parse LLM response as JSON")
    | some sec => .ok sec

/-! ## Document store (app/db.py)

MongoDB is modelled as the ordered list of page documents; `find_one` /
`find_one_and_update` act on the first document matching
`{"page_id": page_id}`, `insert_one` appends.  `datetime.utcnow()` is
passed in as `now`. -/

/-- One stored page document, the fields `save_page` writes. -/
structure PageDocument where
  page_id : Option String
  version : Int
  sections : List SectionData
  created_at : Int
  updated_at : Int
  user_id : Option String
  published : Bool
  user_context : UserInput
  crawled_context : Option String
deriving DecidableEq

/-- The `pages` collection. -/
abbrev Store := List PageDocument

/-- `get_page(page_id)`: `find_one({"page_id": page_id})`. -/
def get_page (store : Store) (page_id : String) : Option PageDocument :=
  store.find? fun p => p.page_id == some page_id

/-- `save_page(page_spec, user_context=None, crawled_context=None)`:
insert a fresh document (`version` defaults to 1, `sections` to `[]`,
`published` to `False`, both timestamps to now). -/
def save_page (store : Store) (page_spec : PageSpec)
    (user_context : Option UserInput) (crawled_context : Option String)
    (now : Int) : Store × PageDocument :=
  let document : PageDocument :=
    { page_id := page_spec.pageId,
      version := page_spec.version.getD 1,
      sections := page_spec.sections.getD [],
      created_at := now, updated_at := now,
      user_id := none, published := false,
      user_context := user_context.getD {},
      crawled_context := crawled_context }
  (store ++ [document], document)

/-- `find_one_and_update({"page_id": page_id}, {"$set": ...})`: rewrite the
first matching document. -/
def update_first (store : Store) (page_id : String)
    (f : PageDocument → PageDocument) : Store :=
  match store with
  | [] => []
  | p :: rest =>
    if p.page_id == some page_id then f p :: rest
    else p :: update_first rest page_id f

/-- `update_page(page_id, sections)`: read the current version, then set
`sections`, `version + 1` and a fresh `updated_at`; `None` when the page
does not exist. -/
def update_page (store : Store) (page_id : String)
    (sections : List SectionData) (now : Int) : Store × Option PageDocument :=
  match get_page store page_id with
  | none => (store, none)
  | some page =>
    let new_version := page.version + 1
    let f := fun (p : PageDocument) =>
      { p with sections := sections, version := new_version, updated_at := now }
    (update_first store page_id f, some (f page))

/-- `publish_page(page_id)`: set `published` and refresh `updated_at` only. -/
def publish_page (store : Store) (page_id : String) (now : Int) :
    Store × Option PageDocument :=
  match get_page store page_id with
  | none => (store, none)
  | some page =>
    let f := fun (p : PageDocument) => { p with published := true, updated_at := now }
    (update_first store page_id f, some (f page))

/-! ## HTTP endpoints (app/routes/pages.py)

Each handler is a function from the store (plus `now` and the external
oracles) to the new store and the HTTP outcome.  The route module crawls
with its own `WebCrawler`; `uuid.uuid4().hex[:8]` draws appear as
parameters (`gen_uuid` inside the generator's prompt, `route_uuid` for the
route's fallback page id). -/

/-- `GeneratePageRequest` (app/models.py): four required brief fields and an
optional `website_url`. -/
structure GeneratePageRequest where
  industry : String
  offer : String
  target_audience : String
  brand_tone : String
  website_url : Option String := none
deriving DecidableEq

/-- `PageSpecResponse` as the generate endpoint returns it. -/
structure PageSpecResponse where
  pageId : String
  version : Int
  sections : List SectionData
deriving DecidableEq

/-- An endpoint outcome: the response model, or an `HTTPException` with its
status code and detail. -/
inductive RouteResult (α : Type) where
  | ok (value : α)
  | httpError (status : Nat) (detail : String)
deriving DecidableEq

/-- The `user_input` dict the generate route builds: exactly the four brief
fields — no `"url"` key. -/
def route_user_input (r : GeneratePageRequest) : UserInput :=
  { industry := some r.industry, offer := some r.offer,
    target_audience := some r.target_audience, brand_tone := some r.brand_tone,
    url := none }

/-- The route's own crawl: `if request.website_url:` guards
`crawler.crawl_website(request.website_url)`. -/
def route_crawled_context (crawl : String → Option String)
    (r : GeneratePageRequest) : Option String :=
  match r.website_url with
  | none => none
  | some u => if u == "" then none else crawl u

/-- `POST /pages/generate`.  A `ValueError` (the parse failure) maps to 400
"Invalid request: ...", any other exception to 500; on success the spec is
given fallback `pageId`/`version` when absent, saved together with
`user_input` and the route's crawled context, and returned (a response
built from a spec with no `sections` key raises after the save — KeyError,
caught as 500). -/
def generate_landing_page (crawl : String → Option String)
    (provider : String → ProviderResult) (parse_spec : String → Option PageSpec)
    (gen_uuid route_uuid : String) (store : Store) (now : Int)
    (request : GeneratePageRequest) : Store × RouteResult PageSpecResponse :=
  let user_input := route_user_input request
  let crawled_context := route_crawled_context crawl request
  match generate_page_spec crawl provider parse_spec gen_uuid user_input
      crawled_context with
  | .error (.malformedOutput msg) =>
    (store, .httpError 400 ("Invalid request: " ++ msg))
  | .error (.generationError msg) =>
    (store, .httpError 500 ("Failed to generate landing page: " ++ msg))
  | .ok page_spec =>
    let pageId := page_spec.pageId.getD ("landing-" ++ route_uuid)
    let version := page_spec.version.getD 1
    let page_spec2 : PageSpec :=
      { pageId := some pageId, version := some version,
        sections := page_spec.sections }
    let store2 := (save_page store page_spec2 (some user_input)
      crawled_context now).1
    match page_spec.sections with
    | none =>
      (store2, .httpError 500 "Failed to generate landing page: 'sections'")
    | some secs =>
      (store2, .ok { pageId := pageId, version := version, sections := secs })

/-- `EditSectionRequest` (app/models.py): a section id and a data dict. -/
structure EditSectionRequest where
  section_id : String
  data : List (String × String)
deriving DecidableEq

/-- The `{"message", "page_id", "version"}` dict the mutation endpoints
return. -/
structure MutationResponse where
  message : String
  page_id : String
  version : Int
deriving DecidableEq

/-- The section-update loop of the edit and regenerate endpoints: replace
the `data` of the FIRST section whose id matches (the loop `break`s), leave
`id`, `type`, `order` and every other section untouched. -/
def replace_first_section_data (sections : List SectionData) (sid : String)
    (new_data : List (String × String)) : List SectionData :=
  match sections with
  | [] => []
  | s :: rest =>
    if s.id == sid then { s with data := new_data } :: rest
    else s :: replace_first_section_data rest sid new_data

/-- The `section_found` flag of the edit loop. -/
def section_found (sections : List SectionData) (sid : String) : Bool :=
  sections.any fun s => s.id == sid

/-- `POST /pages/{page_id}/edit-section`. -/
def edit_section (store : Store) (now : Int) (page_id : String)
    (request : EditSectionRequest) : Store × RouteResult MutationResponse :=
  match get_page store page_id with
  | none => (store, .httpError 404 ("Page " ++ page_id ++ " not found"))
  | some page =>
    if section_found page.sections request.section_id then
      let sections :=
        replace_first_section_data page.sections request.section_id request.data
      match update_page store page_id sections now with
      | (store2, some updated) =>
        (store2, .ok { message := "Section updated successfully",
                       page_id := page_id, version := updated.version })
      | (store2, none) =>
        -- unreachable once get_page succeeded; Python would 500 here
        (store2, .httpError 500 "Failed to edit section: page vanished")
    else (store, .httpError 404 ("Section " ++ request.section_id ++ " not found"))

/-- The regenerate endpoint reuses `EditSectionRequest` and reads
`request.data.get("context", {})`: the optional caller-supplied user-context
dict inside `data` is modelled directly as an optional `UserInput`. -/
structure RegenerateSectionRequest where
  section_id : String
  context : Option UserInput := none
deriving DecidableEq

/-- `user_input = request.data.get("context", {})`. -/
def regenerate_endpoint_user_input (request : RegenerateSectionRequest) :
    UserInput :=
  request.context.getD {}

/-- `POST /pages/{page_id}/regenerate-section`.  Note: only the
caller-supplied context is consulted; the stored `user_context` and
`crawled_context` of the page are never read. -/
def regenerate_section_endpoint (crawl : String → Option String)
    (provider : String → ProviderResult)
    (parse_section : String → Option SectionData)
    (store : Store) (now : Int) (page_id : String)
    (request : RegenerateSectionRequest) : Store × RouteResult MutationResponse :=
  match get_page store page_id with
  | none => (store, .httpError 404 ("Page " ++ page_id ++ " not found"))
  | some page =>
    match page.sections.find? (fun s => s.id == request.section_id) with
    | none =>
      (store, .httpError 404 ("Section " ++ request.section_id ++ " not found"))
    | some section_to_regenerate =>
      let user_input := regenerate_endpoint_user_input request
      match AiDlp.regenerate_section crawl provider parse_section
          section_to_regenerate user_input with
      | .error e =>
        (store, .httpError 500 ("Failed to regenerate section: " ++ gen_error_str e))
      | .ok regenerated =>
        let sections := replace_first_section_data page.sections
          request.section_id regenerated.data
        match update_page store page_id sections now with
        | (store2, some updated) =>
          (store2, .ok { message := "Section regenerated successfully",
                         page_id := page_id, version := updated.version })
        | (store2, none) =>
          (store2, .httpError 500 "Failed to regenerate section: page vanished")

/-- `ReorderSectionsRequest` (app/models.py). -/
structure ReorderSectionsRequest where
  sections : List SectionData
deriving DecidableEq

/-- `POST /pages/{page_id}/reorder-sections`: store the caller's full
replacement section list (no validation of permutation completeness). -/
def reorder_sections (store : Store) (now : Int) (page_id : String)
    (request : ReorderSectionsRequest) : Store × RouteResult MutationResponse :=
  match get_page store page_id with
  | none => (store, .httpError 404 ("Page " ++ page_id ++ " not found"))
  | some _page =>
    match update_page store page_id request.sections now with
    | (store2, some updated) =>
      (store2, .ok { message := "Sections reordered successfully",
                     page_id := page_id, version := updated.version })
    | (store2, none) =>
      (store2, .httpError 500 "Failed to reorder sections: page vanished")

/-- `PublishResponse` (app/models.py). -/
structure PublishResponse where
  page_id : String
  version : Int
  url : String
  message : String
deriving DecidableEq

/-- `POST /pages/{page_id}/publish`. -/
def publish_landing_page (store : Store) (now : Int) (page_id : String) :
    Store × RouteResult PublishResponse :=
  match get_page store page_id with
  | none => (store, .httpError 404 ("Page " ++ page_id ++ " not found"))
  | some _page =>
    match publish_page store page_id now with
    | (store2, some published) =>
      (store2, .ok { page_id := page_id, version := published.version,
                     url := "/preview/" ++ page_id,
                     message := "Page published successfully" })
    | (store2, none) =>
      (store2, .httpError 500 "Failed to publish page: page vanished")

/-! ## Example fixtures (used by witnesses) -/

/-- A concrete generate request with a website URL (spec §8 scenario brief). -/
def ex_request : GeneratePageRequest :=
  { industry := "bakery", offer := "custom cakes",
    target_audience := "event planners", brand_tone := "warm",
    website_url := some "https://example.com" }

/-- A crawl oracle whose extraction always succeeds. -/
def ex_crawl : String → Option String := fun _ => some "EXAMPLE BRAND CONTEXT"

/-- A concrete hero section. -/
def ex_section_hero : SectionData :=
  { id := "hero-1", type := "hero", order := 0,
    data := [("headline", "'Delicious Custom Cakes'")] }

/-- A stored page document carrying a rich persisted context. -/
def ex_page_doc : PageDocument :=
  { page_id := some "landing-11112222", version := 1,
    sections := [ex_section_hero],
    created_at := 0, updated_at := 0, user_id := none, published := false,
    user_context := route_user_input ex_request,
    crawled_context := some "EXAMPLE BRAND CONTEXT" }

/-- A one-page store. -/
def ex_store : Store := [ex_page_doc]

/-! ## C1: the full-generation prompt and the crawled brand context -/

/-- C1.  Even when the route's website crawl succeeds (`website_url` present
and `crawl u = some ctx`), the prompt `generate_page_spec` actually sends to
the provider equals the brand-context-free prompt: `generate_page_spec`
overwrites its `crawled_context` argument with `None` and re-reads a `"url"`
key that the route's `user_input` dict never contains, so the crawled
context never reaches the prompt — contradicting the claim that it is
embedded in full with its instruction block. -/
theorem generate_prompt_discards_brand_context
    (crawl : String → Option String) (gen_uuid : String)
    (r : GeneratePageRequest) (u ctx : String)
    (hu : r.website_url = some u) (hc : crawl u = some ctx) :
    generator_prompt crawl gen_uuid (route_user_input r)
      = build_landing_page_prompt gen_uuid (route_user_input r) none := rfl

/-- C1, witness: the bakery request with a URL and an always-succeeding
crawl still yields the no-context prompt. -/
theorem generate_prompt_discards_brand_context_witness :
    generator_prompt ex_crawl "abcd1234" (route_user_input ex_request)
      = build_landing_page_prompt "abcd1234" (route_user_input ex_request) none :=
  generate_prompt_discards_brand_context ex_crawl "abcd1234" ex_request
    "https://example.com" "EXAMPLE BRAND CONTEXT" rfl rfl

/-! ## C2: regeneration and the persisted page context -/

/-- C2.  For a regenerate-section request on an existing page whose caller
supplies no override context (`request.data` has no `"context"` key), the
regeneration prompt is built from the EMPTY user context and no brand
context — the `user_context` and `crawled_context` persisted with the page
are never read — contradicting the claim that the persisted contexts are
reused. -/
theorem regenerate_prompt_ignores_stored_context
    (crawl : String → Option String) (store : Store) (page_id : String)
    (request : RegenerateSectionRequest) (page : PageDocument) (sec : SectionData)
    (hpage : get_page store page_id = some page)
    (hsec : page.sections.find? (fun s => s.id == request.section_id) = some sec)
    (hno : request.context = none) :
    regenerate_prompt_sent crawl sec (regenerate_endpoint_user_input request)
      = build_section_regenerate_prompt sec {} none := by
  unfold regenerate_endpoint_user_input
  rw [hno]
  rfl

/-- C2, witness: a stored page with a saved brief and crawled context, a
caller that does not override — the prompt is still the empty-context one. -/
theorem regenerate_prompt_ignores_stored_context_witness :
    regenerate_prompt_sent ex_crawl ex_section_hero
        (regenerate_endpoint_user_input { section_id := "hero-1", context := none })
      = build_section_regenerate_prompt ex_section_hero {} none :=
  regenerate_prompt_ignores_stored_context ex_crawl ex_store "landing-11112222"
    { section_id := "hero-1", context := none } ex_page_doc ex_section_hero
    rfl rfl rfl

/-! ## C10: defaults for missing brief fields -/

/-- The brief with `build_landing_page_prompt`'s fixed defaults filled into
the missing fields. -/
def with_brief_defaults (ui : UserInput) : UserInput :=
  { industry := some (ui.industry.getD "general business"),
    offer := some (ui.offer.getD ""),
    target_audience := some (ui.target_audience.getD ""),
    brand_tone := some (ui.brand_tone.getD "professional"),
    url := ui.url }

/-- C10.  `build_landing_page_prompt` is total on partial briefs: a dict
missing any of the four brief fields produces exactly the prompt of the
dict with the fixed defaults filled in — `'general business'` for
`industry`, `'professional'` for `brand_tone`, `''` for `offer` and
`target_audience`. -/
theorem missing_brief_fields_use_defaults (uuid_hex : String) (ui : UserInput)
    (ctx : Option String) :
    build_landing_page_prompt uuid_hex ui ctx
      = build_landing_page_prompt uuid_hex (with_brief_defaults ui) ctx := rfl

/-! ## C3: section identity under regeneration -/

/-- What one regeneration splice guarantees between the old and new row of a
section list: `id`, `type` and `order` are untouched, and any section whose
id is not the regenerated one keeps even its `data`. -/
def PreservesIdentity (sid : String) (s t : SectionData) : Prop :=
  t.id = s.id ∧ t.type = s.type ∧ t.order = s.order ∧ (s.id ≠ sid → t.data = s.data)

theorem preservesIdentity_refl (sid : String) (s : SectionData) :
    PreservesIdentity sid s s :=
  ⟨rfl, rfl, rfl, fun _ => rfl⟩

theorem preservesIdentity_trans {sid : String} {a b c : SectionData}
    (h1 : PreservesIdentity sid a b) (h2 : PreservesIdentity sid b c) :
    PreservesIdentity sid a c := by
  obtain ⟨i1, t1, o1, d1⟩ := h1
  obtain ⟨i2, t2, o2, d2⟩ := h2
  refine ⟨i2.trans i1, t2.trans t1, o2.trans o1, fun h => ?_⟩
  have hb : b.id ≠ sid := by rw [i1]; exact h
  exact (d2 hb).trans (d1 h)

theorem forall2_preserves_trans {sid : String} :
    ∀ {a b c : List SectionData}, List.Forall₂ (PreservesIdentity sid) a b →
      List.Forall₂ (PreservesIdentity sid) b c →
      List.Forall₂ (PreservesIdentity sid) a c := by
  intro a b c h1 h2
  induction h1 generalizing c with
  | nil => cases h2; exact .nil
  | cons hab _h ih =>
    cases h2 with
    | cons hbc h2rest => exact .cons (preservesIdentity_trans hab hbc) (ih h2rest)

theorem replace_first_preserves (sid : String) (d : List (String × String)) :
    ∀ cur : List SectionData,
      List.Forall₂ (PreservesIdentity sid) cur (replace_first_section_data cur sid d) := by
  intro cur
  induction cur with
  | nil => exact .nil
  | cons s rest ih =>
    by_cases h : s.id == sid
    · simp only [replace_first_section_data, h, if_pos]
      exact .cons ⟨rfl, rfl, rfl, fun hne => absurd (eq_of_beq h) hne⟩
        (List.forall₂_same.mpr fun x _ => preservesIdentity_refl sid x)
    · simp only [replace_first_section_data, h, if_neg, Bool.false_eq_true,
        not_false_iff]
      exact .cons (preservesIdentity_refl sid s) ih

/-- C3.  Regenerating one section any number of times — whatever `data`
payloads the provider returns each time — leaves every section's `id`,
`type` and `order` equal to the original's (pointwise, same length), and
touches no other section's `data`: the endpoint splices only
`regenerated["data"]` into the matching section. -/
theorem regenerate_preserves_section_identity (sections : List SectionData)
    (sid : String) (returned : List (List (String × String))) :
    List.Forall₂ (PreservesIdentity sid) sections
      (returned.foldl (fun ss d => replace_first_section_data ss sid d) sections) := by
  have main : ∀ (ds : List (List (String × String))) (cur : List SectionData),
      List.Forall₂ (PreservesIdentity sid) sections cur →
      List.Forall₂ (PreservesIdentity sid) sections
        (ds.foldl (fun ss d => replace_first_section_data ss sid d) cur) := by
    intro ds
    induction ds with
    | nil => intro cur h; exact h
    | cons d ds ih =>
      intro cur h
      exact ih _ (forall2_preserves_trans h (replace_first_preserves sid d cur))
  exact main returned sections
    (List.forall₂_same.mpr fun x _ => preservesIdentity_refl sid x)

/-! ## C6: the error taxonomy of the generation client -/

/-- C6.  Unparseable provider output raises the distinct
`ValueError("Failed to parse LLM response as JSON...")` (the
`MalformedGenerationOutput` of the spec), provider failures raise the
separate wrapped `Exception("Error generating page spec: ...")`; the two
constructors are distinguishable, the route maps them to different HTTP
failures (400 "Invalid request" vs 500), and no repair is attempted: a
successful result is exactly the strict parse of the provider's text. -/
theorem generation_error_taxonomy
    (crawl : String → Option String) (provider : String → ProviderResult)
    (parse_spec : String → Option PageSpec) (gen_uuid route_uuid : String)
    (store : Store) (now : Int) (r : GeneratePageRequest) :
    (∀ text, provider (generator_prompt crawl gen_uuid (route_user_input r)) = .ok text →
        parse_spec text = none →
        generate_page_spec crawl provider parse_spec gen_uuid (route_user_input r)
            (route_crawled_context crawl r)
          = .error (.malformedOutput "Failed to parse LLM response as JSON"))
    ∧ (∀ msg, provider (generator_prompt crawl gen_uuid (route_user_input r)) = .err msg →
        generate_page_spec crawl provider parse_spec gen_uuid (route_user_input r)
            (route_crawled_context crawl r)
          = .error (.generationError ("Error generating page spec: " ++ msg)))
    ∧ (∀ m m2 : String, GenError.malformedOutput m ≠ GenError.generationError m2)
    ∧ (∀ text, provider (generator_prompt crawl gen_uuid (route_user_input r)) = .ok text →
        parse_spec text = none →
        (generate_landing_page crawl provider parse_spec gen_uuid route_uuid
            store now r).2
          = .httpError 400 ("Invalid request: " ++ "Failed to parse LLM response as JSON"))
    ∧ (∀ msg, provider (generator_prompt crawl gen_uuid (route_user_input r)) = .err msg →
        (generate_landing_page crawl provider parse_spec gen_uuid route_uuid
            store now r).2
          = .httpError 500 ("Failed to generate landing page: "
              ++ ("Error generating page spec: " ++ msg)))
    ∧ (∀ spec text,
        provider (generator_prompt crawl gen_uuid (route_user_input r)) = .ok text →
        generate_page_spec crawl provider parse_spec gen_uuid (route_user_input r)
            (route_crawled_context crawl r) = .ok spec →
        parse_spec text = some spec) := by
  refine ⟨?_, ?_, ?_, ?_, ?_, ?_⟩
  · intro text hprov hparse
    simp [generate_page_spec, hprov, hparse]
  · intro msg hprov
    simp [generate_page_spec, hprov]
  · intro m m2 h
    cases h
  · intro text hprov hparse
    simp [generate_landing_page, generate_page_spec, hprov, hparse]
  · intro msg hprov
    simp [generate_landing_page, generate_page_spec, hprov]
  · intro spec text hprov hok
    unfold generate_page_spec at hok
    rw [hprov] at hok
    cases hp : parse_spec text with
    | none => simp [hp] at hok
    | some s =>
      simp only [hp, Except.ok.injEq] at hok
      exact congrArg some hok

/-! ## C5: failed generation persists nothing -/

/-- C5.  Generation and regeneration are all-or-nothing against the store:
when `generate_page_spec` fails (provider error or parse failure) the
generate endpoint leaves the store untouched — `save_page` runs only after
a successful parse — and when `regenerate_section` fails the regenerate
endpoint performs no `update_page`, leaving the stored sections exactly as
they were. -/
theorem failed_generation_leaves_store_unchanged
    (crawl : String → Option String) (provider : String → ProviderResult)
    (parse_spec : String → Option PageSpec)
    (parse_section : String → Option SectionData)
    (gen_uuid route_uuid : String) (store : Store) (now : Int)
    (genr : GeneratePageRequest) (page_id : String)
    (regen_request : RegenerateSectionRequest) :
    (∀ e, generate_page_spec crawl provider parse_spec gen_uuid
        (route_user_input genr) (route_crawled_context crawl genr) = .error e →
      (generate_landing_page crawl provider parse_spec gen_uuid route_uuid
          store now genr).1 = store)
    ∧ (∀ e page sec, get_page store page_id = some page →
        page.sections.find? (fun s => s.id == regen_request.section_id) = some sec →
        regenerate_section crawl provider parse_section sec
          (regenerate_endpoint_user_input regen_request) = .error e →
        (regenerate_section_endpoint crawl provider parse_section store now
            page_id regen_request).1 = store) := by
  constructor
  · intro e he
    simp only [generate_landing_page, he]
    cases e <;> rfl
  · intro e page sec hpage hsec hregen
    simp only [regenerate_section_endpoint, hpage, hsec, hregen]

/-! ## C7: crawler failure containment -/

/-- C7.  The crawler converts every failure inside its own boundary: a
failed homepage fetch yields `None` with no inner page attempted, while a
successful homepage fetch fixes the attempted-URL list (homepage first,
then every one of the first `max_inner_pages` candidates — inner failures
are skipped, never aborting the loop or the result) and always produces a
brand context built from the homepage followed by just the successful
inner fetches. -/
theorem crawler_failure_containment
    (fetch_content : String → Option PageContent)
    (candidates : String → String → List String)
    (set_order : List String → List String)
    (base_url : String) (max_inner_pages : Nat) :
    (fetch_content base_url = none →
        crawl_website fetch_content candidates set_order base_url max_inner_pages = none
        ∧ crawl_attempted_urls fetch_content candidates set_order base_url
            max_inner_pages = [base_url])
    ∧ (∀ c, fetch_content base_url = some c →
        crawl_attempted_urls fetch_content candidates set_order base_url max_inner_pages
          = base_url :: (extract_internal_links (candidates base_url c.html)
              set_order base_url).take max_inner_pages
        ∧ crawl_website fetch_content candidates set_order base_url max_inner_pages
          = some (build_brand_context
              ({ url := base_url, title := c.title,
                 meta_description := c.meta_description,
                 headings_h1 := c.headings_h1, headings_h2 := c.headings_h2,
                 headings_h3 := c.headings_h3, text_content := c.text_content,
                 html := c.html } ::
                (((extract_internal_links (candidates base_url c.html) set_order
                    base_url).take max_inner_pages).map
                  (fetch_page_data fetch_content)).filterMap id))
        ∧ (crawl_website fetch_content candidates set_order base_url
            max_inner_pages).isSome = true) := by
  constructor
  · intro h
    constructor
    · simp [crawl_website, crawl_pages_data, fetch_page_data, h]
    · simp [crawl_attempted_urls, fetch_page_data, h]
  · intro c hc
    refine ⟨?_, ?_, ?_⟩
    · simp [crawl_attempted_urls, fetch_page_data, hc]
    · simp [crawl_website, crawl_pages_data, fetch_page_data, hc]
    · simp [crawl_website, crawl_pages_data, fetch_page_data, hc]

/-! ## C8: shape of the folded brand context -/

theorem join_with_cons (sep x : String) (l : List String) :
    ∃ t, join_with sep (x :: l) = x ++ t := by
  cases l with
  | nil => exact ⟨"", (String.append_empty x).symm⟩
  | cons y ys =>
    exact ⟨sep ++ join_with sep (y :: ys), by
      simp [join_with, String.append_assoc]⟩

theorem set_order_nil (f : List String → List String) (hf : IsSetOrder f) :
    f [] = [] := by
  refine List.eq_nil_iff_forall_not_mem.mpr fun x hx => ?_
  have := ((hf []).2 x).mp hx
  simp at this

/-- The folded context of a non-empty page list opens with the homepage
header block. -/
theorem build_brand_context_cons (home : PageData) (rest : List PageData) :
    ∃ t, build_brand_context (home :: rest)
      = ("=== HOME PAGE ===\nURL: " ++ home.url) ++ t := by
  unfold build_brand_context
  exact join_with_cons _ _ _

/-- C8.  Every successful extraction folds the homepage block first — the
context is `"=== HOME PAGE ===\nURL: " ++ base_url ++ ...` — and is built
from at most `1 + max_inner_pages` page blocks; with a valid set order, a
homepage with zero discoverable internal links yields the context of the
homepage block alone. -/
theorem brand_context_shape
    (fetch_content : String → Option PageContent)
    (candidates : String → String → List String)
    (set_order : List String → List String)
    (base_url : String) (max_inner_pages : Nat) :
    (∀ ctx, crawl_website fetch_content candidates set_order base_url
        max_inner_pages = some ctx →
      ∃ pages, crawl_pages_data fetch_content candidates set_order base_url
            max_inner_pages = some pages
        ∧ ctx = build_brand_context pages
        ∧ pages.length ≤ 1 + max_inner_pages
        ∧ ∃ rest, ctx = ("=== HOME PAGE ===\nURL: " ++ base_url) ++ rest)
    ∧ (IsSetOrder set_order → ∀ c, fetch_content base_url = some c →
        candidates base_url c.html = [] →
        crawl_website fetch_content candidates set_order base_url max_inner_pages
          = some (build_brand_context
              [{ url := base_url, title := c.title,
                 meta_description := c.meta_description,
                 headings_h1 := c.headings_h1, headings_h2 := c.headings_h2,
                 headings_h3 := c.headings_h3, text_content := c.text_content,
                 html := c.html }])) := by
  constructor
  · intro ctx h
    unfold crawl_website at h
    cases hp : crawl_pages_data fetch_content candidates set_order base_url
        max_inner_pages with
    | none => rw [hp] at h; simp at h
    | some pages =>
      rw [hp] at h
      have hctx : ctx = build_brand_context pages := (Option.some.inj h).symm
      refine ⟨pages, rfl, hctx, ?_, ?_⟩
      · unfold crawl_pages_data at hp
        cases hf : fetch_page_data fetch_content base_url with
        | none => rw [hf] at hp; simp at hp
        | some home =>
          rw [hf] at hp
          simp only [Option.some.injEq] at hp
          rw [← hp]
          have hlen : ((((extract_internal_links (candidates base_url home.html)
              set_order base_url).take max_inner_pages).map
                (fetch_page_data fetch_content)).filterMap id).length
              ≤ max_inner_pages := by
            calc ((((extract_internal_links (candidates base_url home.html)
                set_order base_url).take max_inner_pages).map
                  (fetch_page_data fetch_content)).filterMap id).length
                ≤ (((extract_internal_links (candidates base_url home.html)
                    set_order base_url).take max_inner_pages).map
                      (fetch_page_data fetch_content)).length :=
                  List.length_filterMap_le _ _
              _ = ((extract_internal_links (candidates base_url home.html)
                    set_order base_url).take max_inner_pages).length := by
                  rw [List.length_map]
              _ ≤ max_inner_pages := by
                  rw [List.length_take]
                  exact min_le_left _ _
          simp only [List.length_cons]
          omega
      · unfold crawl_pages_data at hp
        cases hcf : fetch_content base_url with
        | none => rw [fetch_page_data, hcf] at hp; simp at hp
        | some c =>
          have hfp : fetch_page_data fetch_content base_url
              = some { url := base_url, title := c.title,
                       meta_description := c.meta_description,
                       headings_h1 := c.headings_h1, headings_h2 := c.headings_h2,
                       headings_h3 := c.headings_h3, text_content := c.text_content,
                       html := c.html } := by
            rw [fetch_page_data, hcf]; rfl
          rw [hfp] at hp
          simp only [Option.some.injEq] at hp
          obtain ⟨t, ht⟩ := build_brand_context_cons
            { url := base_url, title := c.title,
              meta_description := c.meta_description,
              headings_h1 := c.headings_h1, headings_h2 := c.headings_h2,
              headings_h3 := c.headings_h3, text_content := c.text_content,
              html := c.html }
            (((((extract_internal_links (candidates base_url c.html) set_order
                base_url)).take max_inner_pages).map
                  (fetch_page_data fetch_content)).filterMap id)
          refine ⟨t, ?_⟩
          rw [hctx, ← hp]
          exact ht
  · intro hord c hc hcand
    have hlinks : extract_internal_links (candidates base_url c.html) set_order
        base_url = [] := by
      simp [extract_internal_links, hcand, set_order_nil set_order hord]
    simp [crawl_website, crawl_pages_data, fetch_page_data, hc, hlinks]

/-! ## C4: version bumps on mutation, publish leaves content -/

theorem get_page_update_first (pid : String) (f : PageDocument → PageDocument)
    (hf : ∀ p, (f p).page_id = p.page_id) :
    ∀ store : Store, get_page (update_first store pid f) pid
      = (get_page store pid).map f := by
  intro store
  induction store with
  | nil => rfl
  | cons p rest ih =>
    cases hb : p.page_id == some pid with
    | true =>
      have h1 : ((f p).page_id == some pid) = true := by rw [hf]; exact hb
      simp [update_first, get_page, hb, h1]
    | false =>
      have hneg : ¬ ((fun q : PageDocument => q.page_id == some pid) p = true) := by
        simp [hb]
      have e1 : update_first (p :: rest) pid f = p :: update_first rest pid f := by
        simp [update_first, hb]
      rw [e1]
      unfold get_page at ih ⊢
      simp only [List.find?, hb]
      exact ih

theorem update_page_effect (store : Store) (pid : String) (page : PageDocument)
    (secs : List SectionData) (now : Int)
    (hpage : get_page store pid = some page) :
    update_page store pid secs now
      = (update_first store pid (fun p =>
            { p with sections := secs, version := page.version + 1,
                     updated_at := now }),
         some { page with sections := secs, version := page.version + 1,
                          updated_at := now }) := by
  unfold update_page
  rw [hpage]

theorem publish_page_effect (store : Store) (pid : String) (page : PageDocument)
    (now : Int) (hpage : get_page store pid = some page) :
    publish_page store pid now
      = (update_first store pid (fun p => { p with published := true, updated_at := now }),
         some { page with published := true, updated_at := now }) := by
  unfold publish_page
  rw [hpage]

/-- C4.  Every successful content mutation — edit-section,
regenerate-section, reorder — stores the page with `version` incremented by
exactly one and `updated_at` refreshed (the endpoints report that same new
version), while publish sets `published` and refreshes `updated_at` but
leaves `version` and `sections` exactly as stored. -/
theorem content_mutations_bump_version_publish_does_not
    (store : Store) (now : Int) (page_id : String) (page : PageDocument)
    (hpage : get_page store page_id = some page) :
    (∀ secs, (update_page store page_id secs now).2
        = some { page with sections := secs, version := page.version + 1,
                           updated_at := now }
      ∧ get_page (update_page store page_id secs now).1 page_id
        = some { page with sections := secs, version := page.version + 1,
                           updated_at := now })
    ∧ ((publish_page store page_id now).2
        = some { page with published := true, updated_at := now }
      ∧ get_page (publish_page store page_id now).1 page_id
        = some { page with published := true, updated_at := now })
    ∧ (∀ req store2 resp, edit_section store now page_id req = (store2, .ok resp) →
        resp.version = page.version + 1
        ∧ get_page store2 page_id
          = some { page with
                   sections := replace_first_section_data page.sections
                     req.section_id req.data,
                   version := page.version + 1, updated_at := now })
    ∧ (∀ crawl provider parse_section req store2 resp,
        regenerate_section_endpoint crawl provider parse_section store now
            page_id req = (store2, .ok resp) →
        resp.version = page.version + 1
        ∧ ∃ new_sections, get_page store2 page_id
            = some { page with
                     sections := new_sections,
                     version := page.version + 1, updated_at := now })
    ∧ (∀ req store2 resp, reorder_sections store now page_id req = (store2, .ok resp) →
        resp.version = page.version + 1
        ∧ get_page store2 page_id
          = some { page with
                   sections := req.sections,
                   version := page.version + 1, updated_at := now })
    ∧ (∀ store2 resp, publish_landing_page store now page_id = (store2, .ok resp) →
        resp.version = page.version
        ∧ get_page store2 page_id
          = some { page with published := true, updated_at := now }) := by
  refine ⟨?_, ?_, ?_, ?_, ?_, ?_⟩
  · intro secs
    rw [update_page_effect store page_id page secs now hpage]
    refine ⟨rfl, ?_⟩
    rw [get_page_update_first page_id
      (fun p => { p with sections := secs, version := page.version + 1,
                         updated_at := now }) (fun _ => rfl) store, hpage]
    rfl
  · rw [publish_page_effect store page_id page now hpage]
    refine ⟨rfl, ?_⟩
    rw [get_page_update_first page_id
      (fun p => { p with published := true, updated_at := now })
      (fun _ => rfl) store, hpage]
    rfl
  · intro req store2 resp h
    simp only [edit_section, hpage] at h
    cases hfound : section_found page.sections req.section_id with
    | false => simp [hfound] at h
    | true =>
      rw [hfound] at h
      rw [update_page_effect store page_id page _ now hpage] at h
      simp only [if_true] at h
      rw [Prod.mk.injEq] at h
      obtain ⟨hstore, hresp⟩ := h
      rw [RouteResult.ok.injEq] at hresp
      subst hstore
      subst hresp
      refine ⟨rfl, ?_⟩
      rw [get_page_update_first page_id
        (fun p => { p with
            sections := replace_first_section_data page.sections
              req.section_id req.data,
            version := page.version + 1, updated_at := now })
        (fun _ => rfl) store, hpage]
      rfl
  · intro crawl provider parse_section req store2 resp h
    simp only [regenerate_section_endpoint, hpage] at h
    cases hfind : page.sections.find? (fun s => s.id == req.section_id) with
    | none => simp [hfind] at h
    | some sec =>
      rw [hfind] at h
      cases hreg : regenerate_section crawl provider parse_section sec
          (regenerate_endpoint_user_input req) with
      | error e => simp [hreg] at h
      | ok regenerated =>
        simp only [hreg] at h
        rw [update_page_effect store page_id page _ now hpage] at h
        rw [Prod.mk.injEq] at h
        obtain ⟨hstore, hresp⟩ := h
        rw [RouteResult.ok.injEq] at hresp
        subst hstore
        subst hresp
        refine ⟨rfl, replace_first_section_data page.sections req.section_id
          regenerated.data, ?_⟩
        rw [get_page_update_first page_id
          (fun p => { p with
              sections := replace_first_section_data page.sections
                req.section_id regenerated.data,
              version := page.version + 1, updated_at := now })
          (fun _ => rfl) store, hpage]
        rfl
  · intro req store2 resp h
    simp only [reorder_sections, hpage] at h
    rw [update_page_effect store page_id page _ now hpage] at h
    rw [Prod.mk.injEq] at h
    obtain ⟨hstore, hresp⟩ := h
    rw [RouteResult.ok.injEq] at hresp
    subst hstore
    subst hresp
    refine ⟨rfl, ?_⟩
    rw [get_page_update_first page_id
      (fun p => { p with sections := req.sections,
                         version := page.version + 1, updated_at := now })
      (fun _ => rfl) store, hpage]
    rfl
  · intro store2 resp h
    simp only [publish_landing_page, hpage] at h
    rw [publish_page_effect store page_id page now hpage] at h
    rw [Prod.mk.injEq] at h
    obtain ⟨hstore, hresp⟩ := h
    rw [RouteResult.ok.injEq] at hresp
    subst hstore
    subst hresp
    refine ⟨rfl, ?_⟩
    rw [get_page_update_first page_id
      (fun p => { p with published := true, updated_at := now })
      (fun _ => rfl) store, hpage]
    rfl

/-- C4, witness: publishing a concrete one-page store sets the flag and the
timestamp and returns the document otherwise unchanged. -/
theorem content_mutations_witness :
    (publish_page ex_store "landing-11112222" 7).2
      = some { ex_page_doc with published := true, updated_at := 7 } :=
  ((content_mutations_bump_version_publish_does_not ex_store 7 "landing-11112222"
      ex_page_doc rfl).2.1).1

/-! ## C9: determinism and the set iteration order

`_extract_internal_links` returns `list(links)[:5]` for a Python `set
links`: which elements survive the cap, and in which order they are
fetched and folded, depends on the set's hash-determined iteration order —
not a function of the fetched content (CPython randomises string hashes
per process).  Two concrete valid set orders witness the dependence; with
the iteration order fixed (one process), the crawl is deterministic. -/

/-- A concrete valid set order: keep the last occurrence (the shape of a
hash-bucket enumeration). -/
def dedup_last : List String → List String
  | [] => []
  | x :: xs => if x ∈ xs then dedup_last xs else x :: dedup_last xs

theorem mem_dedup_last (x : String) : ∀ l, x ∈ dedup_last l ↔ x ∈ l := by
  intro l
  induction l with
  | nil => simp [dedup_last]
  | cons y ys ih =>
    by_cases hy : y ∈ ys
    · simp only [dedup_last]
      rw [if_pos hy, ih]
      constructor
      · exact fun hx => List.mem_cons_of_mem y hx
      · intro hx
        rcases List.mem_cons.mp hx with rfl | hx2
        · exact hy
        · exact hx2
    · simp only [dedup_last]
      rw [if_neg hy]
      simp [ih]

theorem nodup_dedup_last : ∀ l : List String, (dedup_last l).Nodup := by
  intro l
  induction l with
  | nil => simp [dedup_last]
  | cons y ys ih =>
    by_cases hy : y ∈ ys
    · simp only [dedup_last]
      rw [if_pos hy]
      exact ih
    · simp only [dedup_last]
      rw [if_neg hy]
      exact List.nodup_cons.mpr ⟨fun hmem => hy ((mem_dedup_last y ys).mp hmem), ih⟩

/-- Another valid set order for the same set: the reverse enumeration. -/
def dedup_last_rev : List String → List String := fun l => (dedup_last l).reverse

theorem isSetOrder_dedup_last : IsSetOrder dedup_last :=
  fun l => ⟨nodup_dedup_last l, fun x => mem_dedup_last x l⟩

theorem isSetOrder_dedup_last_rev : IsSetOrder dedup_last_rev := by
  intro l
  constructor
  · exact List.nodup_reverse.mpr (nodup_dedup_last l)
  · intro x
    rw [dedup_last_rev, List.mem_reverse]
    exact mem_dedup_last x l

/-- Fixed page content for the order counterexample. -/
def ex9_content (t : String) : PageContent :=
  { title := t, meta_description := "", headings_h1 := [], headings_h2 := [],
    headings_h3 := [], text_content := "", html := "" }

/-- A fixed assignment of fetched content to URLs. -/
def ex9_fetch : String → Option PageContent := fun u =>
  if u == "https://x.com" then some (ex9_content "Home")
  else if u == "https://x.com/a" then some (ex9_content "A")
  else if u == "https://x.com/b" then some (ex9_content "B")
  else none

/-- The homepage's two cleaned same-domain anchors, in document order. -/
def ex9_candidates : String → String → List String :=
  fun _ _ => ["https://x.com/a", "https://x.com/b"]

/-- C9, counterexample: with the fetched content fixed, two valid iteration
orders of the same link set make `crawl_website` fold the inner pages in
different orders, so the two invocations produce different brand-context
strings (and different candidate sequences): the extractor is not a
function of the fetched content alone. -/
theorem crawl_website_depends_on_set_iteration_order :
    IsSetOrder dedup_last ∧ IsSetOrder dedup_last_rev
    ∧ extract_internal_links (ex9_candidates "https://x.com" "") dedup_last
          "https://x.com"
        ≠ extract_internal_links (ex9_candidates "https://x.com" "") dedup_last_rev
          "https://x.com"
    ∧ crawl_website ex9_fetch ex9_candidates dedup_last "https://x.com" 2
        ≠ crawl_website ex9_fetch ex9_candidates dedup_last_rev "https://x.com" 2 :=
  ⟨isSetOrder_dedup_last, isSetOrder_dedup_last_rev, by decide, by decide⟩

/-- C9, amended.  Once the process's set iteration order is fixed (two
invocations inside one interpreter share the hash seed), `crawl_website`
is deterministic: equal candidate selection, equal attempted URLs, and
character-for-character equal brand-context strings. -/
theorem crawl_website_deterministic_given_set_order
    (fetch_content : String → Option PageContent)
    (candidates : String → String → List String)
    (ord1 ord2 : List String → List String)
    (base_url : String) (max_inner_pages : Nat)
    (h : ∀ l, ord1 l = ord2 l) :
    crawl_website fetch_content candidates ord1 base_url max_inner_pages
      = crawl_website fetch_content candidates ord2 base_url max_inner_pages
    ∧ crawl_attempted_urls fetch_content candidates ord1 base_url max_inner_pages
      = crawl_attempted_urls fetch_content candidates ord2 base_url max_inner_pages := by
  have hfun : ord1 = ord2 := funext h
  rw [hfun]
  exact ⟨rfl, rfl⟩

/-- C9, witness for the amended form at a concrete site and order. -/
theorem crawl_website_deterministic_given_set_order_witness :
    crawl_website ex9_fetch ex9_candidates dedup_last "https://x.com" 2
      = crawl_website ex9_fetch ex9_candidates dedup_last "https://x.com" 2
    ∧ crawl_attempted_urls ex9_fetch ex9_candidates dedup_last "https://x.com" 2
      = crawl_attempted_urls ex9_fetch ex9_candidates dedup_last "https://x.com" 2 :=
  crawl_website_deterministic_given_set_order ex9_fetch ex9_candidates
    dedup_last dedup_last "https://x.com" 2 (fun _ => rfl)

end AiDlp
